import Mathlib

/-! Verification of the gpt4all-ts session controller (`src/gpt4all.ts`).

A shallow embedding of the single source file `src/gpt4all.ts`.  Text on the
streams of the child process is modelled as `List Char`; the per-prompt response
protocol is an explicit event-driven state machine; fallible operations
return `Except`/`Option`.  Times are in milliseconds (`Nat`).
-/

namespace GPT4AllTS

/-! Section: end-of-turn detection.

The source tests each stdout chunk against the regular expression
`/^\u{001B}.*\n>\s?/mu` (gpt4all.ts line 190).  With the `m` flag, `^`
matches at the start of the input and directly after any line terminator
(`\n`, `\r`, U+2028, U+2029); with the `u` flag and no `s` flag, `.`
matches any code point except those line terminators; the final `\s?` is
optional and so never constrains whether the test succeeds. -/

/-- Line terminators recognised by JavaScript regular expressions. -/
def isLineTerm (c : Char) : Bool :=
  c = '\n' || c = '\r' || c = '\u2028' || c = '\u2029'

/-- After the escape byte, the regex demands `.*\n>`: a run of
non-line-terminator characters, then a newline, then `>`.  Because `.`
cannot cross a line terminator, only the first terminator can serve as the
`\n`, so a single scan decides the match. -/
def escTail : List Char → Bool
  | [] => false
  | c :: rest =>
      if c = '\n' then rest.headD ' ' = '>'
      else if isLineTerm c then false
      else escTail rest

/-- Whether the pattern matches when anchored at the current position
(which must be a line start): escape byte `\x1b`, then `.*\n>`. -/
def escLineMatch : List Char → Bool
  | [] => false
  | c :: rest => c = '\x1b' && escTail rest

/-- Scan every position of the chunk; the pattern may be anchored at the
input start or directly after any line terminator. -/
def endOfTurnAux : List Char → Bool → Bool
  | [], _ => false
  | c :: rest, atStart =>
      (atStart && escLineMatch (c :: rest)) || endOfTurnAux rest (isLineTerm c)

/-- The predicate `endOfTurn` embeds `/^\u{001B}.*\n>\s?/mu.test(text)`
(gpt4all.ts line 190). -/
def endOfTurn (cs : List Char) : Bool :=
  endOfTurnAux cs true

/-! Section: the per-prompt response state machine.

Method `prompt` (gpt4all.ts lines 173-227) installs a `data` listener on the
stdout of the child and resolves the returned promise either when a chunk
matches the end-of-turn pattern or when a 4000ms inactivity timer fires.
We model the mutable closure state (`response`, `timeoutId`) together with
the resolution of the promise as an explicit state, and each stdout chunk or
timer expiry as an event. -/

/-- The inactivity timeout passed to `setTimeout` (gpt4all.ts line 207). -/
def timeoutMs : Nat := 4000

/-- The state of one in-flight `prompt` call:
`response` is the accumulated stdout text, `deadline` the absolute expiry
time of the pending `setTimeout` (if one is pending), and `result` the
value the promise has been resolved with (if it has). -/
structure PromptState where
  response : List Char
  deadline : Option Nat
  result : Option (List Char)
  deriving Repr, DecidableEq

/-- The state of a fresh `prompt` call, before any stdout data arrives. -/
def initPromptState : PromptState :=
  { response := [], deadline := none, result := none }

/-- Function `terminateAndResolve` (gpt4all.ts lines 215-223): the value the promise
is resolved with — the final response with a single trailing `>` removed
when one is present. -/
def terminateAndResolve (finalResponse : List Char) : List Char :=
  if finalResponse.getLast? = some '>' then finalResponse.dropLast
  else finalResponse

/-- Handler `onStdoutData` (gpt4all.ts lines 185-207), receiving a chunk at
absolute time `t`.  Once the promise is resolved the listeners have been
removed, so a resolved state is left unchanged.  Otherwise: any pending
timer is cleared; an end-of-turn chunk resolves the promise with the
response accumulated so far; any other chunk arms a fresh `timeoutMs`
timer; in both cases the text of the chunk is then appended to the response. -/
def onStdoutData (st : PromptState) (t : Nat) (text : List Char) : PromptState :=
  if st.result.isSome then st
  else if endOfTurn text then
    { response := st.response ++ text
      deadline := none
      result := some (terminateAndResolve st.response) }
  else
    { response := st.response ++ text
      deadline := some (t + timeoutMs)
      result := st.result }

/-- The `setTimeout` callback (gpt4all.ts lines 207-211) firing at time
`t`: it runs only if a timer is pending and `t` is its expiry time, and it
resolves the promise with the response accumulated so far. -/
def onTimeout (st : PromptState) (t : Nat) : PromptState :=
  match st.deadline with
  | none => st
  | some d =>
      if t = d && st.result.isNone then
        { response := st.response
          deadline := none
          result := some (terminateAndResolve st.response) }
      else st

/-- An observable event during one `prompt` call: a stdout chunk arriving
at time `t`, or the inactivity timer firing at time `t`. -/
inductive PEvent where
  | chunk (t : Nat) (text : List Char)
  | fire (t : Nat)
  deriving Repr, DecidableEq

/-- One step of the response state machine. -/
def step (st : PromptState) : PEvent → PromptState
  | .chunk t text => onStdoutData st t text
  | .fire t => onTimeout st t

/-- Run the state machine from the fresh state over a list of events. -/
def run (es : List PEvent) : PromptState :=
  es.foldl step initPromptState

/-! Section: the controller.

The `GPT4All` class (gpt4all.ts lines 17-48) holds the model name, the
decoder configuration, the two derived artifact paths, and at most one
child-process handle (`bot`, modelled as an optional process id). -/

/-- The fixed closed set of supported model names
(`availableModels`, gpt4all.ts lines 10-13). -/
def availableModels : List String :=
  ["gpt4all-lora-quantized", "gpt4all-lora-unfiltered-quantized"]

/-- Modelled from the spec: `GPTArguments` comes from `./types`, a file not
present in the repository snapshot; §3 of the spec describes
`DecoderOptions` as "an open mapping from option name to scalar value".  A
scalar decoder-option value, with `render` playing the role of
the JavaScript call `value.toString()`. -/
inductive Scalar where
  | str (s : String)
  | int (n : Int)
  | bool (b : Bool)
  deriving Repr, DecidableEq

/-- The JavaScript `toString()` rendering of a scalar value. -/
def Scalar.render : Scalar → String
  | .str s => s
  | .int n => toString n
  | .bool b => if b then "true" else "false"

/-- The fields of a `GPT4All` instance (gpt4all.ts lines 17-22). -/
structure GPT4All where
  bot : Option Nat
  model : String
  decoderConfig : List (String × Scalar)
  executablePath : String
  modelPath : String
  deriving Repr, DecidableEq

/-- The constructor (gpt4all.ts lines 24-48), parametrised by the home
directory of the user.  It records the model and decoder configuration, throws
when the model is not in `availableModels`, and derives the two artifact
paths from the home directory; `bot` starts out null.  `forceDownload` is
received but never read. -/
def construct (home : String) (model : String) (forceDownload : Bool)
    (decoderConfig : List (String × Scalar)) : Except String GPT4All :=
  if availableModels.contains model then
    .ok { bot := none
          model := model
          decoderConfig := decoderConfig
          executablePath := home ++ "/.nomic/gpt4all"
          modelPath := home ++ "/.nomic/" ++ model ++ ".bin" }
  else
    .error ("Model " ++ model ++ " is not supported. Current models supported are:\n"
      ++ String.intercalate ",\n" availableModels)

/-- The two artifacts the provisioner manages. -/
inductive Artifact where
  | executable
  | modelWeights
  deriving Repr, DecidableEq

/-- Method `init` (gpt4all.ts lines 50-62), parametrised by the filesystem
primitive `existsSync` as a predicate on paths: the list of artifact
downloads it starts (each pushed when `forceDownload` is set or the path
of the artifact does not exist), in source order. -/
def init (g : GPT4All) (forceDownload : Bool) (existsSync : String → Bool) :
    List Artifact :=
  (if forceDownload || !existsSync g.executablePath then [Artifact.executable] else [])
    ++ (if forceDownload || !existsSync g.modelPath then [Artifact.modelWeights] else [])

/-- An externally visible action of the controller on the host system. -/
inductive Action where
  | kill (pid : Nat)
  | spawnProc (cmd : String) (args : List String)
  deriving Repr, DecidableEq

/-- Method `close` (gpt4all.ts lines 87-91): a no-op when no session is live,
otherwise kills the child and clears the handle. -/
def close (g : GPT4All) : GPT4All × List Action :=
  match g.bot with
  | none => (g, [])
  | some pid => ({ g with bot := none }, [Action.kill pid])

/-- The `spawnArgs` list built by `open` (gpt4all.ts lines 67-71):
executable path, `--model`, model path, then for each decoder-config entry
in order a `--<key>` flag and the rendered value, pushed onto the list. -/
def spawnArgs (g : GPT4All) : List String :=
  g.decoderConfig.foldl
    (fun args kv => args ++ ["--" ++ kv.1, kv.2.render])
    [g.executablePath, "--model", g.modelPath]

/-- Method `open` (gpt4all.ts lines 64-85) up to the spawn, with `newPid` the pid
the host assigns to the new child: when a session is already live it first
runs `close`, then spawns `spawnArgs[0]` with the remaining arguments and
stores the new handle.  (The subsequent readiness wait does not change the
fields of the controller.) -/
def openSession (g : GPT4All) (newPid : Nat) : GPT4All × List Action :=
  let closed := if g.bot.isSome then close g else (g, [])
  let g1 := closed.1
  ({ g1 with bot := some newPid },
    closed.2 ++ [Action.spawnProc ((spawnArgs g1).headD "") ((spawnArgs g1).drop 1)])

/-- The readiness test `open` applies to each stdout chunk while waiting
(gpt4all.ts lines 78-84): the chunk contains a `>`. -/
def isReadyChunk (cs : List Char) : Bool :=
  cs.contains '>'

/-- The synchronous entry of `prompt` (gpt4all.ts lines 173-179): with no
live session it throws `Bot is not initialized.` before doing anything
else; with a live session it writes the prompt followed by one newline to
the stdin of the child and installs a fresh response state machine. -/
def promptEntry (g : GPT4All) (text : List Char) :
    Except String (List Char × PromptState) :=
  match g.bot with
  | none => .error "Bot is not initialized."
  | some _ => .ok (text ++ ['\n'], initPromptState)

/-! Section: the post-download chmod.

Method `downloadExecutable` (gpt4all.ts lines 93-127) ends with
`chmod(this.executablePath, 0o755, (err) => { if (err) throw err; })`:
the Node callback-style `chmod` returns immediately and runs its callback
later on the event loop, so the promise returned by `downloadExecutable` resolves
without waiting for it, and a `throw` inside the callback becomes an
uncaught exception — it never rejects the promise the caller of
`init` is awaiting. -/

/-- The chmod callback `(err) => { if (err) throw err; }`
(gpt4all.ts lines 121-125): the error it re-throws, if any. -/
def chmodCallback (err : Option String) : Option String :=
  match err with
  | some e => some e
  | none => none

/-- What the tail of `downloadExecutable` produces, as a function of
whether the host chmod reports an error: the mode requested, the outcome
observed by the caller awaiting the download, and any exception escaping
outside the promise chain. -/
structure ChmodOutcome where
  requestedMode : Nat
  callerOutcome : Except String Unit
  uncaughtException : Option String
  deriving Repr

/-- The tail of `downloadExecutable` (gpt4all.ts lines 121-127): mode
`0o755` is requested; the awaited promise resolves unconditionally (the
function proceeds to its `console.log` and returns); an error reported to
the callback is re-thrown there and escapes as an uncaught exception. -/
def downloadExecutableChmod (chmodErr : Option String) : ChmodOutcome :=
  { requestedMode := 0o755
    callerOutcome := .ok ()
    uncaughtException := chmodCallback chmodErr }

/-! Section: helper lemmas. -/

/-- A fold that pushes the rendered flag pair of every entry equals the
initial list followed by the flattened rendered pairs. -/
theorem foldl_push_flags (l : List (String × Scalar)) (a : List String) :
    l.foldl (fun args kv => args ++ ["--" ++ kv.1, kv.2.render]) a
      = a ++ (l.map fun kv => ["--" ++ kv.1, kv.2.render]).flatten := by
  induction l generalizing a with
  | nil => simp
  | cons x xs ih => simp [List.foldl_cons, ih]

/-- Clearing the process handle does not change the spawn arguments. -/
theorem spawnArgs_erase_bot (g : GPT4All) :
    spawnArgs { g with bot := none } = spawnArgs g := rfl

/-! Section: the claims. -/

/-- Claim C1: when the output stream delivers the chunks "hello " then
"world" and then the end-of-turn chunk "\x1b...\n> " — which matches the
end pattern (escape byte, characters, newline, prompt marker) — the
promise resolves with exactly "hello world": the text of the end-of-turn
chunk is not included and no trailing prompt character remains. -/
theorem prompt_resolves_hello_world :
    endOfTurn ("\x1b...\n> ".toList) = true
    ∧ (run [PEvent.chunk 0 ("hello ".toList), PEvent.chunk 1 ("world".toList),
        PEvent.chunk 2 ("\x1b...\n> ".toList)]).result
      = some ("hello world".toList) := by
  decide

/-- Claim C2: after one chunk "partial" that does not match the end
pattern, the call is not yet resolved and an inactivity timer is due
timeoutMs = 4000 ms after the arrival of the chunk; a firing strictly
before that deadline changes nothing; the firing at the deadline resolves
the call with exactly "partial"; and in general every non-matching chunk
arms the timer anew, timeoutMs after its own arrival time. -/
theorem prompt_idle_timeout (t u v : Nat) (st : PromptState) (text : List Char)
    (hv : v < t + timeoutMs) (hres : st.result = none)
    (hend : endOfTurn text = false) :
    timeoutMs = 4000
    ∧ (run [PEvent.chunk t ("partial".toList)]).result = none
    ∧ (run [PEvent.chunk t ("partial".toList)]).deadline = some (t + timeoutMs)
    ∧ step (run [PEvent.chunk t ("partial".toList)]) (PEvent.fire v)
        = run [PEvent.chunk t ("partial".toList)]
    ∧ (step (run [PEvent.chunk t ("partial".toList)]) (PEvent.fire (t + timeoutMs))).result
        = some ("partial".toList)
    ∧ (step st (PEvent.chunk u text)).deadline = some (u + timeoutMs) := by
  have h1 : run [PEvent.chunk t ("partial".toList)]
      = { response := "partial".toList, deadline := some (t + timeoutMs),
          result := none } := rfl
  refine ⟨rfl, ?_, ?_, ?_, ?_, ?_⟩
  · rw [h1]
  · rw [h1]
  · rw [h1]
    simp [step, onTimeout, Nat.ne_of_lt hv]
  · rw [h1]
    simp [step, onTimeout]
    decide
  · simp [step, onStdoutData, hres, hend]

/-- Witness for claim C2 at the concrete inputs t = 0, u = 7, v = 3,
the fresh state and the chunk "x". -/
theorem prompt_idle_timeout_witness :
    (step initPromptState (PEvent.chunk 7 ("x".toList))).deadline
      = some (7 + timeoutMs) :=
  (prompt_idle_timeout 0 7 3 initPromptState ("x".toList)
    (by decide) rfl (by decide)).2.2.2.2.2

/-- Claim C3 counterexample: when the chmod of the downloaded executable
fails (here with "EPERM"), the caller awaiting the download still observes
success — the error is not surfaced as a rejection or catchable throw; it
escapes as an uncaught exception instead. -/
theorem chmod_error_not_surfaced :
    (downloadExecutableChmod (some "EPERM")).callerOutcome = Except.ok ()
    ∧ (downloadExecutableChmod (some "EPERM")).uncaughtException
        = some "EPERM" := by
  exact ⟨rfl, rfl⟩

/-- Claim C3 as amended: after the download the permission bits 0o755 are
requested (execute set for owner, group and others), but a chmod failure
is re-thrown inside the filesystem callback and escapes as an uncaught
exception while the awaited download resolves successfully; the caller of
ensureReady/init cannot observe it as a rejection or catchable throw. -/
theorem chmod_mode_and_uncaught (err : Option String) :
    (downloadExecutableChmod err).requestedMode = 0o755
    ∧ Nat.land (downloadExecutableChmod err).requestedMode 0o111 = 0o111
    ∧ (downloadExecutableChmod err).callerOutcome = Except.ok ()
    ∧ (downloadExecutableChmod err).uncaughtException = err := by
  refine ⟨rfl, ?_, rfl, ?_⟩
  · show Nat.land 0o755 0o111 = 0o111
    decide
  · cases err <;> rfl

/-- Claim C4: construction succeeds exactly for the model names in the
fixed supported set, and for any name outside the set it throws the
unsupported-model error synchronously. -/
theorem construct_supported_iff (home model : String) (fd : Bool)
    (cfg : List (String × Scalar)) :
    ((∃ g, construct home model fd cfg = Except.ok g) ↔ model ∈ availableModels)
    ∧ (construct home model fd cfg
        = Except.error ("Model " ++ model
            ++ " is not supported. Current models supported are:\n"
            ++ String.intercalate ",\n" availableModels)
      ↔ model ∉ availableModels) := by
  by_cases hm : model ∈ availableModels
  · have hc : availableModels.contains model = true := List.elem_iff.mpr hm
    simp [construct, hc, hm]
  · have hc : availableModels.contains model = false := by
      cases hcc : availableModels.contains model
      · rfl
      · exact absurd (List.elem_iff.mp hcc) hm
    simp [construct, hc, hm]

/-- Claim C5: the synchronous entry of prompt fails with the
not-initialized error exactly when no session is live — and then nothing
is written to any input stream — and with a live session it writes the
prompt text followed by a single newline to the stdin of the child. -/
theorem prompt_entry_session (g : GPT4All) (text : List Char) :
    (promptEntry g text = Except.error "Bot is not initialized." ↔ g.bot = none)
    ∧ (promptEntry g text = Except.ok (text ++ ['\n'], initPromptState)
        ↔ g.bot.isSome = true) := by
  cases h : g.bot <;> simp [promptEntry, h]

/-- Claim C6: with two existing artifacts, init with forceDownload false
starts no download; init with forceDownload true downloads both artifacts
regardless of existence; and in general an artifact is fetched exactly
when forceDownload is set or its path does not exist. -/
theorem init_fetch_iff (g : GPT4All) (forceDownload : Bool)
    (existsSync : String → Bool) :
    (init g false existsSync = []
      ↔ (existsSync g.executablePath = true ∧ existsSync g.modelPath = true))
    ∧ init g true existsSync = [Artifact.executable, Artifact.modelWeights]
    ∧ (Artifact.executable ∈ init g forceDownload existsSync
        ↔ (forceDownload || !existsSync g.executablePath) = true)
    ∧ (Artifact.modelWeights ∈ init g forceDownload existsSync
        ↔ (forceDownload || !existsSync g.modelPath) = true) := by
  cases hf : forceDownload <;> cases h1 : existsSync g.executablePath <;>
    cases h2 : existsSync g.modelPath <;> simp [init, h1, h2]

/-- Claim C7: opening while a session is live first tears the existing
process down exactly as close does — a kill of the live process and a
cleared handle — and only then spawns the new process and stores the new
handle, so at most one handle is ever live; the whole sequence is total
and raises no error. -/
theorem open_replaces_session (g : GPT4All) (p q : Nat) (h : g.bot = some p) :
    (close g).1 = { g with bot := none }
    ∧ (close g).2 = [Action.kill p]
    ∧ (openSession g q).1 = { (close g).1 with bot := some q }
    ∧ (openSession g q).2
        = (close g).2
            ++ [Action.spawnProc ((spawnArgs g).headD "") ((spawnArgs g).drop 1)] := by
  refine ⟨?_, ?_, ?_, ?_⟩ <;>
    simp [close, openSession, h, spawnArgs_erase_bot]

/-- Witness for claim C7 at a concrete controller holding process 11 and
a new process 12. -/
theorem open_replaces_session_witness :
    (close { bot := some 11, model := "m", decoderConfig := [],
             executablePath := "/e", modelPath := "/m" }).2 = [Action.kill 11] :=
  (open_replaces_session _ 11 12 rfl).2.1

/-- Claim C8: the spawn argument list is the executable path, then
"--model" and the model path, then for every decoder-option entry in order
a "--key" flag followed by the stringified value, with no escaping or
validation; the process receives the tail of that list as its argument
vector. -/
theorem spawnArgs_shape (g : GPT4All) :
    spawnArgs g
      = [g.executablePath, "--model", g.modelPath]
          ++ (g.decoderConfig.map fun kv => ["--" ++ kv.1, kv.2.render]).flatten
    ∧ (spawnArgs g).headD "" = g.executablePath
    ∧ (spawnArgs g).drop 1
        = ["--model", g.modelPath]
            ++ (g.decoderConfig.map fun kv => ["--" ++ kv.1, kv.2.render]).flatten := by
  have h := foldl_push_flags g.decoderConfig [g.executablePath, "--model", g.modelPath]
  refine ⟨?_, ?_, ?_⟩ <;> simp [spawnArgs, h]

/-- Claim C9: a chunk matching the end pattern is never included in the
resolved reply — the promise is resolved from the accumulator value as it
was before that chunk (with a trailing prompt character stripped), and the
text of the chunk is appended to the accumulator only afterwards. -/
theorem end_chunk_not_included (st : PromptState) (t : Nat) (text : List Char)
    (hres : st.result = none) (hend : endOfTurn text = true) :
    (step st (PEvent.chunk t text)).result = some (terminateAndResolve st.response)
    ∧ (step st (PEvent.chunk t text)).response = st.response ++ text := by
  constructor <;> simp [step, onStdoutData, hres, hend]

/-- Witness for claim C9 at a concrete pending state whose accumulator is
"hi>" and the concrete end-of-turn chunk "\x1b\n>". -/
theorem end_chunk_not_included_witness :
    (step { response := "hi>".toList, deadline := some 9, result := none }
        (PEvent.chunk 5 ("\x1b\n>".toList))).result
      = some (terminateAndResolve ("hi>".toList)) :=
  (end_chunk_not_included _ 5 _ rfl (by decide)).1

/-- Claim C10: the forceDownload argument of the constructor has no effect
whatsoever — two constructions differing only in it yield equal
controllers (and hence indistinguishable behaviour of every later
operation); the embedding of the constructor is a pure function producing
no download or filesystem action, and downloads are decided solely by the
separate forceDownload argument of init. -/
theorem construct_ignores_forceDownload (home model : String) (fd1 fd2 : Bool)
    (cfg : List (String × Scalar)) :
    construct home model fd1 cfg = construct home model fd2 cfg := rfl

end GPT4AllTS
